import Mathlib

/-!
Shallow embedding of the pyDroidDepot protocol core
(droiddepot/connection.py, droiddepot/notify.py, droiddepot/beacon.py,
droiddepot/utils.py, droiddepot/script.py, droiddepot/protocol.py).

Python byte strings are modelled as `List Nat` (each element a byte value),
hex strings as `List Char`, integers as `Nat`/`Int` with explicit bounds
where Python semantics depend on them, and raising `ValueError`/`Exception`
as `Option`/`Except` results.
-/

/-- One hexadecimal digit character for a value below 16, lowercase, as
produced by Python's `hex()` / `bytes.hex()`.  Mirrors `Nat.digitChar`. -/
def hexDigitChar (n : Nat) : Char := Nat.digitChar n

/-- Parses one hexadecimal digit character, accepting the upper and lower
case letters exactly as Python's `int(s, 16)` does.  `none` models the
`ValueError` raised on a non-hex character. -/
def hexDigitToNat? (c : Char) : Option Nat :=
  if '0' ≤ c ∧ c ≤ '9' then some (c.toNat - '0'.toNat)
  else if 'a' ≤ c ∧ c ≤ 'f' then some (c.toNat - 'a'.toNat + 10)
  else if 'A' ≤ c ∧ c ≤ 'F' then some (c.toNat - 'A'.toNat + 10)
  else none

/-- Accumulator loop for `hex_to_int`. -/
def hexToIntGo : List Char → Nat → Option Nat
  | [], acc => some acc
  | c :: cs, acc =>
    match hexDigitToNat? c with
    | none => none
    | some d => hexToIntGo cs (acc * 16 + d)

/-- utils.hex_to_int: Python `int(hex_str, 16)` on the plain hex-digit
strings this codebase produces.  `none` models the `ValueError` raised on
an empty string or a non-hex character. -/
def hex_to_int (s : List Char) : Option Nat :=
  match s with
  | [] => none
  | _ => hexToIntGo s 0

/-- utils.int_to_hex for a nonnegative input: `hex(num)[2:]`, zero-padded
on the left to an even number of digits.  (Python's `hex()` of a negative
int is never exercised by this codebase or the claims.) -/
def int_to_hex (num : Nat) : List Char :=
  let h := Nat.toDigits 16 num
  if h.length % 2 ≠ 0 then '0' :: h else h

/-- The two lowercase hex digits of one byte value, as `bytes.hex()`
produces for each byte (`%02x`); faithful for `b < 256`. -/
def byte_to_hex (b : Nat) : List Char :=
  [hexDigitChar (b / 16), hexDigitChar (b % 16)]

/-- Python `bytes.hex()`: the concatenation of each byte's two lowercase
hex digits. -/
def bytes_hex (data : List Nat) : List Char :=
  (data.map byte_to_hex).flatten

/-- Python `bytes.fromhex` on a whitespace-free string: consumes hex-digit
pairs; `none` models the `ValueError` on an odd-length or non-hex input.
(`bytes.fromhex` additionally ignores ASCII spaces, which no call site of
this codebase and no claim exercises.) -/
def bytes_fromhex : List Char → Option (List Nat)
  | [] => some []
  | [_] => none
  | c1 :: c2 :: rest =>
    match hexDigitToNat? c1, hexDigitToNat? c2 with
    | some d1, some d2 => (bytes_fromhex rest).map (fun bs => (d1 * 16 + d2) :: bs)
    | _, _ => none

/-- utils.dbm_to_hex: `int_to_hex(int((dbm_val - 0x80) / -1))`.  For an
integer input the float arithmetic is exact, so the value is `128 - dbm`;
faithful for `dbm ≤ 128` (all dBm inputs), where that value is
nonnegative. -/
def dbm_to_hex (dbm_val : Int) : List Char :=
  int_to_hex (128 - dbm_val).toNat

/-- utils.hex_to_dbm: `(int(hex_str, 16) - 0x80) * -1`. -/
def hex_to_dbm (hex_str : List Char) : Option Int :=
  (hex_to_int hex_str).map (fun n => ((n : Int) - 0x80) * (-1))

-- Basic evaluation facts about the hex machinery.

theorem hexDigitToNat?_digitChar : ∀ d : Nat, d < 16 →
    hexDigitToNat? (hexDigitChar d) = some d := by decide

theorem byte_to_hex_length (b : Nat) : (byte_to_hex b).length = 2 := rfl

theorem hex_to_int_byte_to_hex (b : Nat) (hb : b < 256) :
    hex_to_int (byte_to_hex b) = some b := by
  have h1 : b / 16 < 16 := by omega
  have h2 : b % 16 < 16 := by omega
  simp only [byte_to_hex, hex_to_int, hexToIntGo,
    hexDigitToNat?_digitChar _ h1, hexDigitToNat?_digitChar _ h2,
    Option.some.injEq]
  omega

theorem bytes_hex_cons (b : Nat) (rest : List Nat) :
    bytes_hex (b :: rest) = byte_to_hex b ++ bytes_hex rest := rfl

theorem bytes_hex_nil : bytes_hex [] = [] := rfl

theorem bytes_hex_length (data : List Nat) :
    (bytes_hex data).length = 2 * data.length := by
  induction data with
  | nil => rfl
  | cons b rest ih =>
    simp [bytes_hex_cons, byte_to_hex_length, ih]
    omega

/-- `bytes.fromhex` inverts `bytes.hex()` on lists of byte values. -/
theorem bytes_fromhex_bytes_hex (data : List Nat) (hb : ∀ b ∈ data, b < 256) :
    bytes_fromhex (bytes_hex data) = some data := by
  induction data with
  | nil => rfl
  | cons b rest ih =>
    have hblt : b < 256 := hb b (List.mem_cons_self b rest)
    have h1 : b / 16 < 16 := by omega
    have h2 : b % 16 < 16 := by omega
    have ihr : bytes_fromhex (bytes_hex rest) = some rest :=
      ih (fun x hx => hb x (List.mem_cons_of_mem b hx))
    have hshape : bytes_hex (b :: rest) =
        hexDigitChar (b / 16) :: hexDigitChar (b % 16) :: bytes_hex rest := rfl
    rw [hshape]
    simp only [bytes_fromhex, hexDigitToNat?_digitChar _ h1,
      hexDigitToNat?_digitChar _ h2, ihr, Option.map_some']
    have : b / 16 * 16 + b % 16 = b := by omega
    rw [this]

/-- A successful `bytes.fromhex` needs an even-length input. -/
theorem bytes_fromhex_even (s : List Char) (l : List Nat)
    (h : bytes_fromhex s = some l) : s.length % 2 = 0 := by
  induction s using bytes_fromhex.induct generalizing l with
  | case1 => rfl
  | case2 c => simp [bytes_fromhex] at h
  | case3 c1 c2 rest d1 d2 hd1 hd2 ih =>
    simp only [bytes_fromhex, hd1, hd2] at h
    cases hrest : bytes_fromhex rest with
    | none => rw [hrest] at h; simp at h
    | some l2 =>
      have := ih l2 hrest
      simp only [List.length_cons]
      omega
  | case4 c1 c2 rest hne =>
    simp only [bytes_fromhex] at h
    exact Option.noConfusion h

/-
connection.py, DroidConnection.build_droid_command.

The Python source computes `data_length = len(data) // 2`, the four header
bytes, then runs `bytearray([byte1, byte2, byte3, byte4])` followed by
`command_bytes.extend(bytes.fromhex(data))` inside a try block; a
`ValueError` from either step (a header value outside 0..255, or malformed
hex data) is re-raised as `ValueError`, modelled as `none`.
-/

/-- connection.py DroidConnection.build_droid_command. -/
def build_droid_command (command_id : Nat) (data : List Char) : Option (List Nat) :=
  let data_length := data.length / 2
  let header_length := 3
  let byte2 : Nat := if command_id = 15 then 0x42 else 0x00
  let total_length := data_length + header_length
  let byte1 := total_length ||| 0x20
  let byte3 := command_id
  let byte4 := data_length + 0x40
  if byte1 < 256 ∧ byte2 < 256 ∧ byte3 < 256 ∧ byte4 < 256 then
    match bytes_fromhex data with
    | some payload => some ([byte1, byte2, byte3, byte4] ++ payload)
    | none => none
  else none

/-- notify.py DroidNotifyMessage: the decoded notification frame.
`message_size` is kept as an `Int` because the Python value
`int(...) - 0x1f` can be negative; `message_data` is the hex string
`hex_data[8:]` exactly as the source stores it. -/
structure DroidNotifyMessage where
  message_size : Int
  unknown1 : Nat
  command_id : Nat
  unknown3 : Nat
  message_data : List Char
  deriving DecidableEq, Repr

/-- notify.py DroidNotificationProcessor.decode_notify_message.  All four
header fields are parsed from `data.hex()` before the length check, so an
input shorter than four bytes raises `ValueError` from `int('', 16)`
(modelled `none`) even when the declared size matches; the explicit
truncation check raises `ValueError` when `len(data) != message_size`. -/
def decode_notify_message (data : List Nat) : Option DroidNotifyMessage :=
  let hex_data := bytes_hex data
  match hex_to_int (hex_data.take 2), hex_to_int ((hex_data.drop 2).take 2),
        hex_to_int ((hex_data.drop 4).take 2), hex_to_int ((hex_data.drop 6).take 2) with
  | some s, some unknown1, some command_id, some unknown3 =>
    let message_size : Int := (s : Int) - 0x1f
    if (data.length : Int) ≠ message_size then none
    else some ⟨message_size, unknown1, command_id, unknown3, hex_data.drop 8⟩
  | _, _, _, _ => none

/-- The exact frame `build_droid_command` produces for the hex encoding of
an in-range payload: header bytes followed by the payload bytes. -/
theorem build_droid_command_bytes (command_id : Nat) (payload : List Nat)
    (hcid : command_id < 256) (hb : ∀ b ∈ payload, b < 256)
    (hlen : payload.length ≤ 191) :
    build_droid_command command_id (bytes_hex payload) =
      some (((payload.length + 3) ||| 0x20) ::
        (if command_id = 15 then 0x42 else 0x00) ::
        command_id :: (payload.length + 0x40) :: payload) := by
  have hdl : (bytes_hex payload).length / 2 = payload.length := by
    rw [bytes_hex_length]; omega
  have hb1 : (payload.length + 3) ||| 0x20 < 256 := by
    have h256 : (256 : Nat) = 2 ^ 8 := by norm_num
    rw [h256]
    exact Nat.or_lt_two_pow (by omega) (by norm_num)
  have hb2 : (if command_id = 15 then (0x42 : Nat) else 0x00) < 256 := by
    split <;> norm_num
  simp only [build_droid_command, hdl]
  rw [if_pos ⟨hb1, hb2, hcid, by omega⟩, bytes_fromhex_bytes_hex payload hb]
  rfl

/-- If `bytes.fromhex` rejects the data string (for example because its
length is odd), `build_droid_command` raises `ValueError`. -/
theorem build_droid_command_malformed (command_id : Nat) (data : List Char)
    (hodd : data.length % 2 = 1) :
    build_droid_command command_id data = none := by
  have hfh : bytes_fromhex data = none := by
    cases hf : bytes_fromhex data with
    | none => rfl
    | some l => exact absurd (bytes_fromhex_even data l hf) (by omega)
  simp only [build_droid_command, hfh]
  rw [ite_self]

/-- C1 (amended): for every `command_id < 256` and every payload of at most
191 bytes, `build_droid_command` succeeds, the third header byte is the
command id, and the fourth header byte minus 0x40 is the payload length.
The first header byte is `(len + 3) ||| 0x20`; subtracting 3 and clearing
the 0x20 bit does not recover the length in general (see the
counterexample), and lengths 192..252 make the fourth header byte exceed a
byte, so `bytearray` raises `ValueError`. -/
theorem C1_header_roundtrip (command_id : Nat) (payload : List Nat)
    (hcid : command_id < 256) (hb : ∀ b ∈ payload, b < 256)
    (hlen : payload.length ≤ 191) :
    ∃ frame, build_droid_command command_id (bytes_hex payload) = some frame ∧
      frame.get? 2 = some command_id ∧
      frame.get? 3 = some (payload.length + 0x40) ∧
      frame.get? 0 = some ((payload.length + 3) ||| 0x20) := by
  refine ⟨_, build_droid_command_bytes command_id payload hcid hb hlen, rfl, rfl, rfl⟩

/-- Witness for C1 at `command_id = 1`, payload `[0xab]`. -/
theorem C1_witness :
    ∃ frame, build_droid_command 1 (bytes_hex [0xab]) = some frame ∧
      frame.get? 2 = some 1 ∧
      frame.get? 3 = some (1 + 0x40) ∧
      frame.get? 0 = some ((1 + 3) ||| 0x20) :=
  C1_header_roundtrip 1 [0xab] (by decide) (by decide) (by decide)

set_option maxRecDepth 4096 in
/-- Counterexample to C1 as stated: a 252-byte payload does not build (the
fourth header byte would be 252 + 0x40 = 316, outside a byte, so
`bytearray` raises `ValueError`), and at payload length 32 the first
header byte is 35, from which neither `(b1 with 0x20 cleared) - 3` nor
`(b1 - 3) with 0x20 cleared` recovers 32. -/
theorem C1_counterexample :
    build_droid_command 0 (bytes_hex (List.replicate 252 0)) = none ∧
    build_droid_command 0 (bytes_hex (List.replicate 32 0)) =
      some (35 :: 0 :: 0 :: 96 :: List.replicate 32 0) ∧
    (35 &&& 0xdf) - 3 ≠ 32 ∧ (35 - 3) &&& 0xdf ≠ 32 := by decide

/-- C7 (amended): for every `command_id < 256` and well-formed even-length
hex payload of `n ≤ 191` bytes, `build_droid_command` produces exactly
`[(n+3)|||0x20, (0x42 if command_id = 15 else 0x00), command_id, n+0x40]`
followed by the payload bytes, and for an odd-length hex string it fails
with `ValueError` (MalformedPayload).  The claim's unbounded payload
length must be restricted to 191 (see the counterexample). -/
theorem C7_exact_frame (command_id : Nat) (payload : List Nat) (data : List Char)
    (hcid : command_id < 256) (hb : ∀ b ∈ payload, b < 256)
    (hlen : payload.length ≤ 191) (hodd : data.length % 2 = 1) :
    build_droid_command command_id (bytes_hex payload) =
      some (((payload.length + 3) ||| 0x20) ::
        (if command_id = 15 then 0x42 else 0x00) ::
        command_id :: (payload.length + 0x40) :: payload) ∧
    build_droid_command command_id data = none :=
  ⟨build_droid_command_bytes command_id payload hcid hb hlen,
   build_droid_command_malformed command_id data hodd⟩

/-- Witness for C7 at `command_id = 15`, payload `[1, 2]`, odd hex `"a"`. -/
theorem C7_witness :
    build_droid_command 15 (bytes_hex [1, 2]) =
      some (((2 + 3) ||| 0x20) :: (if 15 = 15 then 0x42 else 0x00) ::
        15 :: (2 + 0x40) :: [1, 2]) ∧
    build_droid_command 15 ['a'] = none :=
  C7_exact_frame 15 [1, 2] ['a'] (by decide) (by decide) (by decide) (by decide)

set_option maxRecDepth 4096 in
/-- Counterexample to C7 as stated: at payload length 192 (a well-formed
even-length hex string) the code raises `ValueError` instead of producing
the frame, because the fourth header byte 192 + 0x40 = 0x100 exceeds a
byte. -/
theorem C7_counterexample :
    build_droid_command 0 (bytes_hex (List.replicate 192 0)) = none := by decide

theorem decode_notify_message_nil : decode_notify_message [] = none := rfl

theorem decode_notify_message_one (a : Nat) : decode_notify_message [a] = none := by
  have hslice : hex_to_int (((bytes_hex [a]).drop 2).take 2) = none := rfl
  simp only [decode_notify_message]
  split
  · simp_all
  · rfl

theorem decode_notify_message_two (a b : Nat) :
    decode_notify_message [a, b] = none := by
  have hslice : hex_to_int (((bytes_hex [a, b]).drop 4).take 2) = none := rfl
  simp only [decode_notify_message]
  split
  · simp_all
  · rfl

theorem decode_notify_message_three (a b c : Nat) :
    decode_notify_message [a, b, c] = none := by
  have hslice : hex_to_int (((bytes_hex [a, b, c]).drop 6).take 2) = none := rfl
  simp only [decode_notify_message]
  split
  · simp_all
  · rfl

/-- What `decode_notify_message` does on any input of at least four bytes:
the truncation check against the declared size `b0 - 0x1f` alone decides
success, and on success the message fields are the header bytes and the
hex string of the remaining bytes. -/
theorem decode_notify_message_eq (b0 b1 b2 b3 : Nat) (rest : List Nat)
    (h0 : b0 < 256) (h1 : b1 < 256) (h2 : b2 < 256) (h3 : b3 < 256) :
    decode_notify_message (b0 :: b1 :: b2 :: b3 :: rest) =
      if ((b0 :: b1 :: b2 :: b3 :: rest).length : Int) ≠ (b0 : Int) - 0x1f
      then none
      else some ⟨(b0 : Int) - 0x1f, b1, b2, b3, bytes_hex rest⟩ := by
  have e0 : (bytes_hex (b0 :: b1 :: b2 :: b3 :: rest)).take 2 = byte_to_hex b0 := rfl
  have e1 : ((bytes_hex (b0 :: b1 :: b2 :: b3 :: rest)).drop 2).take 2 = byte_to_hex b1 := rfl
  have e2 : ((bytes_hex (b0 :: b1 :: b2 :: b3 :: rest)).drop 4).take 2 = byte_to_hex b2 := rfl
  have e3 : ((bytes_hex (b0 :: b1 :: b2 :: b3 :: rest)).drop 6).take 2 = byte_to_hex b3 := rfl
  have e4 : (bytes_hex (b0 :: b1 :: b2 :: b3 :: rest)).drop 8 = bytes_hex rest := rfl
  simp only [decode_notify_message]
  rw [e0, e1, e2, e3, e4, hex_to_int_byte_to_hex b0 h0, hex_to_int_byte_to_hex b1 h1,
    hex_to_int_byte_to_hex b2 h2, hex_to_int_byte_to_hex b3 h3]

/-- C2 (amended): `decode_notify_message` fails with `ValueError` if and
only if the received byte length differs from the declared size (first
byte minus 0x1f) or the input is shorter than the four-byte header (all
header fields are parsed before the size check, and `int('', 16)` raises
`ValueError`); whenever it succeeds, the returned message's `command_id`
is the third byte of the input and its payload is the hex string of the
remaining bytes after the four-byte header, unchanged. -/
theorem C2_decode_notify (b0 b1 b2 b3 : Nat) (rest : List Nat)
    (h0 : b0 < 256) (h1 : b1 < 256) (h2 : b2 < 256) (h3 : b3 < 256) :
    (decode_notify_message (b0 :: b1 :: b2 :: b3 :: rest) =
      if ((b0 :: b1 :: b2 :: b3 :: rest).length : Int) ≠ (b0 : Int) - 0x1f
      then none
      else some ⟨(b0 : Int) - 0x1f, b1, b2, b3, bytes_hex rest⟩) ∧
    ∀ data : List Nat, data.length < 4 → decode_notify_message data = none := by
  refine ⟨decode_notify_message_eq b0 b1 b2 b3 rest h0 h1 h2 h3, ?_⟩
  intro data hlen
  match data with
  | [] => exact decode_notify_message_nil
  | [a] => exact decode_notify_message_one a
  | [a, b] => exact decode_notify_message_two a b
  | [a, b, c] => exact decode_notify_message_three a b c
  | a :: b :: c :: d :: t => simp at hlen; omega

/-- Witness for C2 at the frame `[0x24, 0x00, 0x07, 0x00, 0xaa]`, whose
declared size 0x24 - 0x1f = 5 matches its length. -/
theorem C2_witness :
    (decode_notify_message [0x24, 0x00, 0x07, 0x00, 0xaa] =
      if (([0x24, 0x00, 0x07, 0x00, 0xaa] : List Nat).length : Int) ≠ (0x24 : Int) - 0x1f
      then none
      else some ⟨(0x24 : Int) - 0x1f, 0x00, 0x07, 0x00, bytes_hex [0xaa]⟩) ∧
    ∀ data : List Nat, data.length < 4 → decode_notify_message data = none :=
  C2_decode_notify 0x24 0x00 0x07 0x00 [0xaa] (by decide) (by decide) (by decide) (by decide)

/-- Counterexample to C2 as stated: the one-byte input `[0x20]` declares
size 0x20 - 0x1f = 1, equal to its received length, yet decoding fails
(`int('', 16)` raises `ValueError` while parsing the missing header
fields), so "fails if and only if the received byte length differs from
the declared size" is false. -/
theorem C2_counterexample :
    decode_notify_message [0x20] = none ∧
    ([0x20] : List Nat).length = 1 ∧ (0x20 : Int) - 0x1f = 1 := by
  refine ⟨?_, rfl, rfl⟩
  exact decode_notify_message_one 0x20

/-
notify.py, DroidNotificationProcessor pending-callback state.

`__pending_callback_events` is a dict mapping a command id to an ordered
list of `asyncio.Queue` objects, one per waiting caller.  Queues are
modelled as handles (allocation-ordered `Nat` ids); `queue.put(response)`
events are recorded in `delivered` in order.  `wait_for_command_response`
registers a fresh queue and then awaits it with a timeout; the timeout
path (`asyncio.TimeoutError` -> `return None`) mutates nothing, so a
timed-out caller's queue stays registered.
-/

/-- Looks a command id up in the pending-callback dict. -/
def lookupPending (m : List (Nat × List Nat)) (cid : Nat) : Option (List Nat) :=
  match m with
  | [] => none
  | (k, v) :: rest => if k = cid then some v else lookupPending rest cid

/-- Dict assignment `m[cid] = q`: replaces the existing binding or appends
a new one. -/
def setPending (m : List (Nat × List Nat)) (cid : Nat) (q : List Nat) :
    List (Nat × List Nat) :=
  match m with
  | [] => [(cid, q)]
  | (k, v) :: rest => if k = cid then (k, q) :: rest else (k, v) :: setPending rest cid q

/-- The correlation-engine state: the pending dict, the next fresh queue
handle, and the ordered log of `queue.put` deliveries. -/
structure PendingState where
  pending : List (Nat × List Nat)
  next_handle : Nat
  delivered : List (Nat × List Char)
  deriving DecidableEq, Repr

/-- The registration half of
notify.py DroidNotificationProcessor.wait_for_command_response: create a
fresh queue, create the per-command list if absent, and append the queue
to it.  Returns the new queue's handle and the updated state. -/
def wait_register (st : PendingState) (command_id : Nat) : Nat × PendingState :=
  let h := st.next_handle
  let q := (lookupPending st.pending command_id).getD []
  (h, { pending := setPending st.pending command_id (q ++ [h]),
        next_handle := h + 1,
        delivered := st.delivered })

/-- notify.py DroidNotificationProcessor.__handle_pending_callbacks: if the
command id has a nonempty queue list, put the response into the first
(oldest) queue and remove that queue from the list.  The source's
`list.remove(list[0])` removes exactly the head element. -/
def handle_pending_callbacks (st : PendingState) (command_id : Nat)
    (response : List Char) : PendingState :=
  match lookupPending st.pending command_id with
  | none => st
  | some [] => st
  | some (h :: rest) =>
    { st with pending := setPending st.pending command_id rest,
              delivered := st.delivered ++ [(h, response)] }

theorem lookupPending_setPending (m : List (Nat × List Nat)) (cid : Nat)
    (q : List Nat) : lookupPending (setPending m cid q) cid = some q := by
  induction m with
  | nil => simp [lookupPending, setPending]
  | cons kv rest ih =>
    obtain ⟨k, v⟩ := kv
    by_cases hk : k = cid
    · simp [lookupPending, setPending, hk]
    · simp [lookupPending, setPending, hk, ih]

/-- C3 (confirmed): with no pending entry for `command_id`, registering two
waits and then delivering two matching notifications resolves them in
registration order: each delivery resolves the oldest pending queue with
the message payload and removes it from the queue list. -/
theorem C3_fifo_resolution (st : PendingState) (command_id : Nat)
    (p1 p2 : List Char)
    (hempty : (lookupPending st.pending command_id).getD [] = []) :
    let r1 := wait_register st command_id
    let r2 := wait_register r1.2 command_id
    let st3 := handle_pending_callbacks r2.2 command_id p1
    let st4 := handle_pending_callbacks st3 command_id p2
    r2.1 = r1.1 + 1 ∧
    lookupPending r2.2.pending command_id = some [r1.1, r2.1] ∧
    st3.delivered = st.delivered ++ [(r1.1, p1)] ∧
    lookupPending st3.pending command_id = some [r2.1] ∧
    st4.delivered = st.delivered ++ [(r1.1, p1), (r2.1, p2)] ∧
    lookupPending st4.pending command_id = some [] := by
  intro r1 r2 st3 st4
  have e1 : r1 = (st.next_handle,
      ⟨setPending st.pending command_id [st.next_handle], st.next_handle + 1,
       st.delivered⟩) := by
    simp [r1, wait_register, hempty]
  have e2 : r2 = (st.next_handle + 1,
      ⟨setPending (setPending st.pending command_id [st.next_handle]) command_id
         [st.next_handle, st.next_handle + 1], st.next_handle + 2, st.delivered⟩) := by
    rw [show r2 = wait_register r1.2 command_id from rfl, e1]
    simp [wait_register, lookupPending_setPending]
  have e3 : st3 =
      ⟨setPending (setPending (setPending st.pending command_id [st.next_handle])
          command_id [st.next_handle, st.next_handle + 1]) command_id
          [st.next_handle + 1],
       st.next_handle + 2, st.delivered ++ [(st.next_handle, p1)]⟩ := by
    rw [show st3 = handle_pending_callbacks r2.2 command_id p1 from rfl, e2]
    simp [handle_pending_callbacks, lookupPending_setPending]
  have e4 : st4 =
      ⟨setPending (setPending (setPending (setPending st.pending command_id
          [st.next_handle]) command_id [st.next_handle, st.next_handle + 1])
          command_id [st.next_handle + 1]) command_id [],
       st.next_handle + 2,
       st.delivered ++ [(st.next_handle, p1), (st.next_handle + 1, p2)]⟩ := by
    rw [show st4 = handle_pending_callbacks st3 command_id p2 from rfl, e3]
    simp [handle_pending_callbacks, lookupPending_setPending]
  refine ⟨?_, ?_, ?_, ?_, ?_, ?_⟩
  · rw [e1, e2]
  · rw [e1, e2]; exact lookupPending_setPending _ _ _
  · rw [e1, e3]
  · rw [e2, e3]; exact lookupPending_setPending _ _ _
  · rw [e1, e2, e4]
  · rw [e4]; exact lookupPending_setPending _ _ _

/-- Witness for C3: two waits registered for command id 0x81 starting from
the empty state, resolved by payloads `"a"` and `"b"` in order. -/
theorem C3_witness :
    let r1 := wait_register ⟨[], 0, []⟩ 0x81
    let r2 := wait_register r1.2 0x81
    let st3 := handle_pending_callbacks r2.2 0x81 ['a']
    let st4 := handle_pending_callbacks st3 0x81 ['b']
    r2.1 = r1.1 + 1 ∧
    lookupPending r2.2.pending 0x81 = some [r1.1, r2.1] ∧
    st3.delivered = [] ++ [(r1.1, ['a'])] ∧
    lookupPending st3.pending 0x81 = some [r2.1] ∧
    st4.delivered = [] ++ [(r1.1, ['a']), (r2.1, ['b'])] ∧
    lookupPending st4.pending 0x81 = some [] :=
  C3_fifo_resolution ⟨[], 0, []⟩ 0x81 ['a'] ['b'] (by rfl)

/-- C4 (amended): if no matching notification arrives within the timeout,
`wait_for_command_response` returns None (the TimedOut outcome), but the
`except asyncio.TimeoutError: return None` path removes nothing from
`__pending_callback_events`, so the abandoned queue stays registered: a
notification delivered after the timeout still resolves the abandoned
entry, putting the payload into the dead queue and removing it from the
queue list (the response is swallowed instead of reaching any later
waiter). -/
theorem C4_timeout_leak (st : PendingState) (command_id : Nat) (p : List Char)
    (hempty : (lookupPending st.pending command_id).getD [] = []) :
    let r := wait_register st command_id
    (handle_pending_callbacks r.2 command_id p).delivered
      = st.delivered ++ [(r.1, p)] ∧
    lookupPending (handle_pending_callbacks r.2 command_id p).pending command_id
      = some [] := by
  intro r
  have e1 : r = (st.next_handle,
      ⟨setPending st.pending command_id [st.next_handle], st.next_handle + 1,
       st.delivered⟩) := by
    simp [r, wait_register, hempty]
  constructor
  · rw [e1]; simp [handle_pending_callbacks, lookupPending_setPending]
  · rw [e1]; simp [handle_pending_callbacks, lookupPending_setPending]

/-- Witness for C4: one wait registered for command id 0x81 from the empty
state, timed out, then resolved by a late notification carrying `"a"`. -/
theorem C4_witness :
    let r := wait_register ⟨[], 0, []⟩ 0x81
    (handle_pending_callbacks r.2 0x81 ['a']).delivered = [] ++ [(r.1, ['a'])] ∧
    lookupPending (handle_pending_callbacks r.2 0x81 ['a']).pending 0x81 = some [] :=
  C4_timeout_leak ⟨[], 0, []⟩ 0x81 ['a'] (by rfl)

/-- Counterexample to C4 as stated: a wait for command id 0x81 is
registered (handle 0) and times out (the timeout path mutates nothing);
the next matching notification then resolves the abandoned handle — its
payload is delivered to handle 0 — contradicting "no notification
delivered after the timeout may resolve the abandoned handle". -/
theorem C4_counterexample :
    (handle_pending_callbacks (wait_register ⟨[], 0, []⟩ 0x81).2 0x81 ['a']).delivered
      = [(0, ['a'])] := by decide

/-
script.py, DroidScriptEngine location reactions.

`__perform_location_reactions` iterates the scan batch with two loop
variables initialised once, before the loop: `can_execute = True` and
`already_executed = False`.  Inside the loop `can_execute` is reassigned
only when the address is already in `__location_reaction_tracker`, so an
untracked address inherits the previous iteration's value.  The reaction
call `execute_location_reaction(location_id)` raises `ValueError` (caught
and logged by the per-iteration try block, leaving the tracker and
`already_executed` untouched) unless `1 <= location_id <= 7`:
`execute_location_reaction` rejects ids above 7,
`send_script_command` rejects ids below 1 for the Execute action and
rejects id 13.  The two `datetime.now()` calls of one iteration are
modelled as the single instant `now`.
-/

/-- A location beacon as decoded by the external dbeacon scanner: the two
fields `__perform_location_reactions` reads. -/
structure LocationBeacon where
  location_id : Nat
  reaction_interval : Nat
  deriving DecidableEq, Repr

/-- script.py DroidScriptEngine.__calculate_reaction_time. -/
def calculate_reaction_time (interval : Nat) : Nat :=
  let interval5 := interval * 5
  if interval5 < 60 then 60 else interval5

/-- Whether `execute_location_reaction(location_id)` completes without
raising: ids above 7 are rejected by `execute_location_reaction`, id 0 by
`send_script_command` (Execute action), id 13 by the dangerous-script
check (already above 7). -/
def execute_location_reaction_ok (location_id : Nat) : Bool :=
  decide (1 ≤ location_id ∧ location_id ≤ 7)

/-- Dict lookup in `__location_reaction_tracker`. -/
def lookupReaction (m : List (String × Int)) (addr : String) : Option Int :=
  match m with
  | [] => none
  | (k, v) :: rest => if k = addr then some v else lookupReaction rest addr

/-- Dict assignment `__location_reaction_tracker[addr] = now`. -/
def setReaction (m : List (String × Int)) (addr : String) (t : Int) :
    List (String × Int) :=
  match m with
  | [] => [(addr, t)]
  | (k, v) :: rest => if k = addr then (k, t) :: rest else (k, v) :: setReaction rest addr t

/-- The loop state of one `__perform_location_reactions` sweep: the two
loop flags, the tracker dict, the log of `execute_location_reaction`
invocations (`calls`) and of the successful reactions (`executed`). -/
structure ReactionSweepState where
  can_execute : Bool
  already_executed : Bool
  tracker : List (String × Int)
  calls : List Nat
  executed : List (String × Nat)
  deriving DecidableEq, Repr

/-- One iteration of the `for location_beacon_info in beacons` loop of
script.py DroidScriptEngine.__perform_location_reactions. -/
def reaction_step (now : Int) (st : ReactionSweepState)
    (item : String × LocationBeacon) : ReactionSweepState :=
  let location_beacon_address := item.1
  let location_beacon := item.2
  let can_execute :=
    match lookupReaction st.tracker location_beacon_address with
    | some last_execution =>
      decide (now - last_execution ≥
        (calculate_reaction_time location_beacon.reaction_interval : Int))
    | none => st.can_execute
  if can_execute && !st.already_executed then
    if execute_location_reaction_ok location_beacon.location_id then
      { can_execute := can_execute, already_executed := true,
        tracker := setReaction st.tracker location_beacon_address now,
        calls := st.calls ++ [location_beacon.location_id],
        executed := st.executed ++ [(location_beacon_address, location_beacon.location_id)] }
    else
      { st with can_execute := can_execute,
                calls := st.calls ++ [location_beacon.location_id] }
  else
    { st with can_execute := can_execute }

/-- script.py DroidScriptEngine.__perform_location_reactions: early return
on an empty batch, otherwise the loop over the batch starting from
`can_execute = True`, `already_executed = False` and the current
tracker. -/
def perform_location_reactions (now : Int) (tracker : List (String × Int))
    (beacons : List (String × LocationBeacon)) : ReactionSweepState :=
  if beacons.length = 0 then ⟨true, false, tracker, [], []⟩
  else beacons.foldl (reaction_step now) ⟨true, false, tracker, [], []⟩

/-- The sweep measure: successful reactions so far, plus one headroom
while no reaction has fired yet.  `reaction_step` never increases it. -/
def reactionMeasure (st : ReactionSweepState) : Nat :=
  st.executed.length + (if st.already_executed then 0 else 1)

theorem reaction_step_measure_le (now : Int) (st : ReactionSweepState)
    (item : String × LocationBeacon) :
    reactionMeasure (reaction_step now st item) ≤ reactionMeasure st := by
  simp only [reaction_step, reactionMeasure]
  split
  · rename_i hguard
    have hae : st.already_executed = false := by
      by_cases h : st.already_executed <;> simp_all
    split <;> simp [hae]
  · split <;> simp

theorem reaction_foldl_measure_le (now : Int)
    (items : List (String × LocationBeacon)) (st : ReactionSweepState) :
    reactionMeasure (items.foldl (reaction_step now) st) ≤ reactionMeasure st := by
  induction items generalizing st with
  | nil => simp
  | cons i rest ih =>
    calc reactionMeasure ((i :: rest).foldl (reaction_step now) st)
        = reactionMeasure (rest.foldl (reaction_step now) (reaction_step now st i)) := rfl
      _ ≤ reactionMeasure (reaction_step now st i) := ih _
      _ ≤ reactionMeasure st := reaction_step_measure_le now st i

/-- C6 (confirmed): at most one successful reaction fires per invocation
of `__perform_location_reactions`; an empty batch fires none; a batch of
two distinct eligible addresses (untracked, valid script ids) fires
exactly one reaction — for the first address — not two. -/
theorem C6_at_most_one_reaction (now : Int) (tracker : List (String × Int))
    (beacons : List (String × LocationBeacon)) (a1 a2 : String)
    (b1 b2 : LocationBeacon) (hne : a1 ≠ a2)
    (h1 : execute_location_reaction_ok b1.location_id = true)
    (h2 : execute_location_reaction_ok b2.location_id = true) :
    (perform_location_reactions now tracker beacons).executed.length ≤ 1 ∧
    (perform_location_reactions now tracker []).executed = [] ∧
    (perform_location_reactions now [] [(a1, b1), (a2, b2)]).executed
      = [(a1, b1.location_id)] := by
  refine ⟨?_, rfl, ?_⟩
  · unfold perform_location_reactions
    split
    · simp
    · have h := reaction_foldl_measure_le now beacons ⟨true, false, tracker, [], []⟩
      have hinit : reactionMeasure ⟨true, false, tracker, [], []⟩ = 1 := rfl
      rw [hinit] at h
      exact le_trans (Nat.le_add_right _ _) h
  · have s1 : reaction_step now ⟨true, false, [], [], []⟩ (a1, b1) =
        ⟨true, true, [(a1, now)], [b1.location_id], [(a1, b1.location_id)]⟩ := by
      simp [reaction_step, lookupReaction, setReaction, h1]
    have s2 : reaction_step now
        ⟨true, true, [(a1, now)], [b1.location_id], [(a1, b1.location_id)]⟩ (a2, b2) =
        ⟨true, true, [(a1, now)], [b1.location_id], [(a1, b1.location_id)]⟩ := by
      simp [reaction_step, lookupReaction, hne]
    show (List.foldl (reaction_step now) ⟨true, false, [], [], []⟩
      [(a1, b1), (a2, b2)]).executed = [(a1, b1.location_id)]
    rw [List.foldl_cons, s1, List.foldl_cons, s2]
    rfl

/-- Witness for C6 with two fresh addresses carrying script ids 1 and 2. -/
theorem C6_witness :
    (perform_location_reactions 0 [] []).executed.length ≤ 1 ∧
    (perform_location_reactions 0 [] []).executed = [] ∧
    (perform_location_reactions 0 [] [("aa", ⟨1, 0⟩), ("bb", ⟨2, 0⟩)]).executed
      = [("aa", (⟨1, 0⟩ : LocationBeacon).location_id)] :=
  C6_at_most_one_reaction 0 [] [] "aa" "bb" ⟨1, 0⟩ ⟨2, 0⟩ (by decide) (by decide)
    (by decide)

/-- C5: the code's behaviour at the failing input.  The tracker knows
address "aa" (last reaction at time 0); at time 10 the batch holds "aa"
(interval 1, required window max(60, 5) = 60 seconds, not yet elapsed)
followed by the never-reacted address "bb".  The claim says "bb" is
eligible (no prior reaction timestamp) and fires; the code computes
`can_execute = False` for "aa" and, because `can_execute` is only
reassigned for tracked addresses, carries that stale value into "bb"'s
iteration: no reaction fires at all.  "bb" alone does fire, showing the
batch prefix corrupted its eligibility. -/
theorem C5_stale_flag_behaviour :
    (perform_location_reactions 10 [("aa", 0)]
        [("aa", ⟨1, 1⟩), ("bb", ⟨2, 1⟩)]).executed = [] ∧
    (perform_location_reactions 10 [("aa", 0)]
        [("aa", ⟨1, 1⟩), ("bb", ⟨2, 1⟩)]).calls = [] ∧
    lookupReaction [("aa", 0)] "bb" = none ∧
    (perform_location_reactions 10 [("aa", 0)] [("bb", ⟨2, 1⟩)]).executed
      = [("bb", 2)] ∧
    calculate_reaction_time 1 = 60 := by decide

/-
beacon.py payload codecs.  Payloads are hex strings; the encoder
uppercases the whole payload (`.upper()`), the decoder parses fixed
2-character slices with `int(s, 16)`, which accepts either case.
-/

/-- beacon.py get_beacon_header. -/
def get_beacon_header (beacon_type : Nat) (data_length : Nat) : List Char :=
  int_to_hex beacon_type ++ int_to_hex data_length

/-- beacon.py create_location_beacon_payload: validates the script id
range 1..7 (`ValueError` otherwise, modelled `none`), then concatenates
header (type 10, length 4), script id, reaction interval, dBm byte and
paired flag, uppercased. -/
def create_location_beacon_payload (script_id : Nat) (reaction_interval : Nat)
    (signal_strength : Int) (droid_paired : Bool) : Option (List Char) :=
  if script_id < 1 ∨ script_id > 7 then none
  else some (List.map Char.toUpper
    (get_beacon_header 10 4 ++ int_to_hex script_id ++ int_to_hex reaction_interval ++
     dbm_to_hex signal_strength ++ (if droid_paired then ['0', '1'] else ['0', '0'])))

/-- The dict returned by beacon.py decode_location_beacon_payload. -/
structure LocationBeaconData where
  script_id : Nat
  reaction_interval : Nat
  signal_strength : Int
  droid_paired : Bool
  deriving DecidableEq, Repr

/-- beacon.py decode_location_beacon_payload: parses the four 2-character
slices at offsets 4, 6, 8, 10; the paired flag is `bool(int(...))`. -/
def decode_location_beacon_payload (payload : List Char) : Option LocationBeaconData :=
  match hex_to_int ((payload.drop 4).take 2), hex_to_int ((payload.drop 6).take 2),
        hex_to_dbm ((payload.drop 8).take 2), hex_to_int ((payload.drop 10).take 2) with
  | some script_id, some reaction_interval, some signal_strength, some dp =>
    some ⟨script_id, reaction_interval, signal_strength, decide (dp ≠ 0)⟩
  | _, _, _, _ => none

set_option maxRecDepth 8192 in
theorem int_to_hex_eq_byte_to_hex : ∀ b : Nat, b < 256 →
    int_to_hex b = byte_to_hex b := by decide

set_option maxRecDepth 8192 in
theorem hex_to_int_upper_byte_to_hex : ∀ b : Nat, b < 256 →
    hex_to_int (List.map Char.toUpper (byte_to_hex b)) = some b := by decide

/-- Decoding a location-beacon payload assembled from its uppercased
byte blocks. -/
theorem decode_location_blocks (x y z : Nat) (w1 w2 : Char) (dp : Nat)
    (hx : x < 256) (hy : y < 256) (hz : z < 256)
    (hw : hex_to_int [w1, w2] = some dp) :
    decode_location_beacon_payload
      (['0', 'A', '0', '4'] ++ List.map Char.toUpper (byte_to_hex x) ++
       List.map Char.toUpper (byte_to_hex y) ++
       List.map Char.toUpper (byte_to_hex z) ++ [w1, w2]) =
      some ⟨x, y, ((z : Int) - 0x80) * (-1), decide (dp ≠ 0)⟩ := by
  have e1 : ((['0', 'A', '0', '4'] ++ List.map Char.toUpper (byte_to_hex x) ++
      List.map Char.toUpper (byte_to_hex y) ++
      List.map Char.toUpper (byte_to_hex z) ++ [w1, w2]).drop 4).take 2 =
      List.map Char.toUpper (byte_to_hex x) := rfl
  have e2 : ((['0', 'A', '0', '4'] ++ List.map Char.toUpper (byte_to_hex x) ++
      List.map Char.toUpper (byte_to_hex y) ++
      List.map Char.toUpper (byte_to_hex z) ++ [w1, w2]).drop 6).take 2 =
      List.map Char.toUpper (byte_to_hex y) := rfl
  have e3 : ((['0', 'A', '0', '4'] ++ List.map Char.toUpper (byte_to_hex x) ++
      List.map Char.toUpper (byte_to_hex y) ++
      List.map Char.toUpper (byte_to_hex z) ++ [w1, w2]).drop 8).take 2 =
      List.map Char.toUpper (byte_to_hex z) := rfl
  have e4 : ((['0', 'A', '0', '4'] ++ List.map Char.toUpper (byte_to_hex x) ++
      List.map Char.toUpper (byte_to_hex y) ++
      List.map Char.toUpper (byte_to_hex z) ++ [w1, w2]).drop 10).take 2 =
      [w1, w2] := rfl
  simp only [decode_location_beacon_payload, hex_to_dbm, e1, e2, e3, e4,
    hex_to_int_upper_byte_to_hex x hx, hex_to_int_upper_byte_to_hex y hy,
    hex_to_int_upper_byte_to_hex z hz, hw, Option.map_some']
  rfl

/-- C8 (confirmed): for every script id in 1..7, reaction interval in
0..255, signal strength in -90..-20 dBm and paired flag,
`decode_location_beacon_payload` inverts `create_location_beacon_payload`
exactly; the dBm value is encoded as `(dbm - 0x80) * -1` and decoded by
the inverse transform. -/
theorem C8_location_beacon_roundtrip (s r : Nat) (d : Int) (p : Bool)
    (hs1 : 1 ≤ s) (hs7 : s ≤ 7) (hr : r < 256)
    (hd1 : -90 ≤ d) (hd2 : d ≤ -20) :
    (create_location_beacon_payload s r d p).bind decode_location_beacon_payload
      = some ⟨s, r, d, p⟩ := by
  have hnot : ¬(s < 1 ∨ s > 7) := by omega
  have hs256 : s < 256 := by omega
  have hz256 : (128 - d).toNat < 256 := by omega
  have hcast : ((128 - d).toNat : Int) = 128 - d := by omega
  have hhdr : List.map Char.toUpper (get_beacon_header 10 4) = ['0', 'A', '0', '4'] := rfl
  have hdbm : dbm_to_hex d = byte_to_hex (128 - d).toNat := by
    rw [show dbm_to_hex d = int_to_hex (128 - d).toNat from rfl,
      int_to_hex_eq_byte_to_hex _ hz256]
  cases p with
  | false =>
    have hpair : hex_to_int ['0', '0'] = some 0 := rfl
    simp only [create_location_beacon_payload, if_neg hnot, if_neg (by simp : ¬False)]
    rw [show (if false = true then ['0', '1'] else ['0', '0']) = ['0', '0'] from rfl]
    rw [int_to_hex_eq_byte_to_hex s hs256, int_to_hex_eq_byte_to_hex r hr, hdbm]
    simp only [List.map_append, hhdr, Option.some_bind]
    rw [show List.map Char.toUpper ['0', '0'] = ['0', '0'] from rfl]
    rw [decode_location_blocks s r (128 - d).toNat '0' '0' 0 hs256 hr hz256 hpair]
    have : (((128 - d).toNat : Int) - 0x80) * (-1) = d := by omega
    rw [this]
    rfl
  | true =>
    have hpair : hex_to_int ['0', '1'] = some 1 := rfl
    simp only [create_location_beacon_payload, if_neg hnot]
    rw [if_pos trivial]
    rw [int_to_hex_eq_byte_to_hex s hs256, int_to_hex_eq_byte_to_hex r hr, hdbm]
    simp only [List.map_append, hhdr, Option.some_bind]
    rw [show List.map Char.toUpper ['0', '1'] = ['0', '1'] from rfl]
    rw [decode_location_blocks s r (128 - d).toNat '0' '1' 1 hs256 hr hz256 hpair]
    have : (((128 - d).toNat : Int) - 0x80) * (-1) = d := by omega
    rw [this]
    rfl

/-- Witness for C8 at script id 3, interval 2, -70 dBm, paired. -/
theorem C8_witness :
    (create_location_beacon_payload 3 2 (-70) true).bind
      decode_location_beacon_payload = some ⟨3, 2, -70, true⟩ :=
  C8_location_beacon_roundtrip 3 2 (-70) true (by decide) (by decide) (by decide)
    (by decide) (by decide)

/-- Python's `f"{n:02X}"`: uppercase hexadecimal, zero-padded on the left
to at least two digits. -/
def format02X (n : Nat) : List Char :=
  let h := List.map Char.toUpper (Nat.toDigits 16 n)
  if h.length < 2 then '0' :: h else h

/-- beacon.py create_droid_beacon_payload: header (type 3, length 4),
the literal `44`, the biased paired byte `0x80 + int(droid_paired)`, the
biased affiliation byte `affiliation_id * 2 + 0x80` and the personality
byte, each formatted `02X`. -/
def create_droid_beacon_payload (droid_paired : Bool) (affiliation_id : Nat)
    (personality_id : Nat) : List Char :=
  get_beacon_header 3 4 ++ ['4', '4'] ++
  format02X (0x80 + (if droid_paired then 1 else 0)) ++
  format02X (affiliation_id * 2 + 0x80) ++
  format02X personality_id

/-- The dict returned by beacon.py decode_droid_beacon_payload.  The
paired flag and affiliation id come out as Python ints
(`int(...) - 0x80` and `int((... - 0x80) / 2)`), kept as `Int` here. -/
structure DroidBeaconData where
  data_length : Int
  droid_paired : Int
  affiliation_id : Int
  personality_id : Nat
  deriving DecidableEq, Repr

/-- beacon.py decode_droid_beacon_payload: parses the 2-character slices
at offsets 4, 6, 8, 10 and inverts the biasing; `int((x - 0x80) / 2)`
truncates toward zero, which is `Int.tdiv`. -/
def decode_droid_beacon_payload (payload : List Char) : Option DroidBeaconData :=
  match hex_to_int ((payload.drop 4).take 2), hex_to_int ((payload.drop 6).take 2),
        hex_to_int ((payload.drop 8).take 2), hex_to_int ((payload.drop 10).take 2) with
  | some dl, some dp, some af, some pid =>
    some ⟨(dl : Int) - 0x40, (dp : Int) - 0x80, ((af : Int) - 0x80).tdiv 2, pid⟩
  | _, _, _, _ => none

set_option maxRecDepth 8192 in
theorem format02X_eq_upper_byte_to_hex : ∀ b : Nat, b < 256 →
    format02X b = List.map Char.toUpper (byte_to_hex b) := by decide

/-- Decoding a droid-beacon payload assembled from its byte blocks. -/
theorem decode_droid_blocks (u v w : Nat)
    (hu : u < 256) (hv : v < 256) (hw : w < 256) :
    decode_droid_beacon_payload
      (get_beacon_header 3 4 ++ ['4', '4'] ++ format02X u ++ format02X v ++
       format02X w) =
      some ⟨4, (u : Int) - 0x80, ((v : Int) - 0x80).tdiv 2, w⟩ := by
  rw [format02X_eq_upper_byte_to_hex u hu, format02X_eq_upper_byte_to_hex v hv,
    format02X_eq_upper_byte_to_hex w hw]
  have e1 : ((get_beacon_header 3 4 ++ ['4', '4'] ++
      List.map Char.toUpper (byte_to_hex u) ++ List.map Char.toUpper (byte_to_hex v) ++
      List.map Char.toUpper (byte_to_hex w)).drop 4).take 2 = ['4', '4'] := rfl
  have e2 : ((get_beacon_header 3 4 ++ ['4', '4'] ++
      List.map Char.toUpper (byte_to_hex u) ++ List.map Char.toUpper (byte_to_hex v) ++
      List.map Char.toUpper (byte_to_hex w)).drop 6).take 2 =
      List.map Char.toUpper (byte_to_hex u) := rfl
  have e3 : ((get_beacon_header 3 4 ++ ['4', '4'] ++
      List.map Char.toUpper (byte_to_hex u) ++ List.map Char.toUpper (byte_to_hex v) ++
      List.map Char.toUpper (byte_to_hex w)).drop 8).take 2 =
      List.map Char.toUpper (byte_to_hex v) := rfl
  have e4 : ((get_beacon_header 3 4 ++ ['4', '4'] ++
      List.map Char.toUpper (byte_to_hex u) ++ List.map Char.toUpper (byte_to_hex v) ++
      List.map Char.toUpper (byte_to_hex w)).drop 10).take 2 =
      List.map Char.toUpper (byte_to_hex w) := rfl
  simp only [decode_droid_beacon_payload, e1, e2, e3, e4,
    hex_to_int_upper_byte_to_hex u hu, hex_to_int_upper_byte_to_hex v hv,
    hex_to_int_upper_byte_to_hex w hw]
  rfl

/-- C9 (confirmed): for every paired flag, affiliation id in 0..15 and
personality id in 0..255, `decode_droid_beacon_payload` inverts
`create_droid_beacon_payload`: decoded `data_length` is 4, the paired
byte `0x80 + int(p)` decodes back to `int(p)` (Python's `True == 1`,
`False == 0`), and the affiliation byte `a*2 + 0x80` decodes back to `a`
by `(byte - 0x80) / 2` truncated. -/
theorem C9_droid_beacon_roundtrip (p : Bool) (a pid : Nat)
    (ha : a ≤ 15) (hpid : pid < 256) :
    decode_droid_beacon_payload (create_droid_beacon_payload p a pid) =
      some ⟨4, if p then 1 else 0, a, pid⟩ := by
  have hab : a * 2 + 0x80 < 256 := by omega
  have haff : (((a * 2 + 0x80 : Nat) : Int) - 0x80).tdiv 2 = (a : Int) := by
    have hc : ((a * 2 + 0x80 : Nat) : Int) - 0x80 = 2 * (a : Int) := by push_cast; ring
    rw [hc]
    exact Int.mul_tdiv_cancel_left (a : Int) (by norm_num)
  cases p with
  | false =>
    have e : create_droid_beacon_payload false a pid =
        get_beacon_header 3 4 ++ ['4', '4'] ++ format02X 128 ++
        format02X (a * 2 + 0x80) ++ format02X pid := rfl
    rw [e, decode_droid_blocks 128 (a * 2 + 0x80) pid (by norm_num) hab hpid, haff]
    rfl
  | true =>
    have e : create_droid_beacon_payload true a pid =
        get_beacon_header 3 4 ++ ['4', '4'] ++ format02X 129 ++
        format02X (a * 2 + 0x80) ++ format02X pid := rfl
    rw [e, decode_droid_blocks 129 (a * 2 + 0x80) pid (by norm_num) hab hpid, haff]
    rfl

/-- Witness for C9 at paired, affiliation 5, personality 1. -/
theorem C9_witness :
    decode_droid_beacon_payload (create_droid_beacon_payload true 5 1) =
      some ⟨4, if true then 1 else 0, 5, 1⟩ :=
  C9_droid_beacon_roundtrip true 5 1 (by decide) (by decide)

/-
notify.py receive path.  `handle_incoming_message` wraps decoding and
processing in `try/except ValueError`; any other exception type escapes
to the caller.  `__verify_firmware_version` (command id 129) raises a
plain `Exception` on a firmware mismatch, which `except ValueError` does
not catch.
-/

/-- The two exception classes that can cross this boundary. -/
inductive PyError where
  | valueError
  | exception
  deriving DecidableEq, Repr

/-- hardware.py DroidFirmwareVersion. -/
def DroidFirmwareVersion : List Char :=
  ['4', 'b', '1', '0', '0', '1', '4', '4', '4', '4', '1', '1',
   '1', '1', '0', '1', '0', '0', '0', '0', '0', '0', '0', '0']

/-- protocol.py DroidCommandId.valid_command: membership in the enum's
value map. -/
def valid_command (value : Nat) : Bool :=
  List.elem value [1, 2, 3, 4, 5, 6, 12, 13, 14, 15, 128, 129]

/-- notify.py DroidNotificationProcessor.__verify_firmware_version: raises
a plain `Exception` (not `ValueError`) when the payload differs from the
expected firmware version; otherwise returns None. -/
def verify_firmware_version (message_data : List Char) : Except PyError Unit :=
  if message_data ≠ DroidFirmwareVersion then Except.error PyError.exception
  else Except.ok ()

/-- notify.py DroidNotificationProcessor.__handle_runit_head_motor_events:
parses two header slices of the payload with `hex_to_int` (`ValueError`
on a too-short payload) and dispatches the event id to the registered
motor event handlers (none inside this library), returning None. -/
def handle_runit_head_motor_events (message_data : List Char) : Except PyError Unit :=
  match hex_to_int (message_data.take 2), hex_to_int ((message_data.drop 2).take 2) with
  | some _, some _ => Except.ok ()
  | _, _ => Except.error PyError.valueError

/-- notify.py DroidNotificationProcessor.__process_incoming_message:
unknown command ids are logged and dropped; command 129 runs the firmware
check and command 128 the head-motor handler (both return None, so the
response delivered to pending callbacks is always `message_data`). -/
def process_incoming_message (st : PendingState) (message : DroidNotifyMessage) :
    Except PyError PendingState :=
  if ¬ valid_command message.command_id then Except.ok st
  else
    let handlerResult : Except PyError Unit :=
      if message.command_id = 129 then verify_firmware_version message.message_data
      else if message.command_id = 128 then
        handle_runit_head_motor_events message.message_data
      else Except.ok ()
    match handlerResult with
    | Except.error e => Except.error e
    | Except.ok () =>
      Except.ok (handle_pending_callbacks st message.command_id message.message_data)

/-- notify.py DroidNotificationProcessor.handle_incoming_message: the
decode and processing run inside `try/except ValueError`; a `ValueError`
is logged and swallowed, any other exception escapes. -/
def handle_incoming_message (st : PendingState) (data : List Nat) :
    Except PyError PendingState :=
  match decode_notify_message data with
  | none => Except.ok st
  | some message =>
    match process_incoming_message st message with
    | Except.ok st2 => Except.ok st2
    | Except.error PyError.valueError => Except.ok st
    | Except.error PyError.exception => Except.error PyError.exception

/-- C10 (amended): `handle_incoming_message` never lets a `ValueError`
escape — malformed notifications and unrecognized command ids are logged
and swallowed — and the only input on which it raises at all is a
well-formed notification with command id 129
(RetrieveFirmwareInformationResponse) whose payload differs from the
expected firmware version: there `__verify_firmware_version` raises a
plain `Exception` that `except ValueError` does not catch. -/
theorem C10_receive_path (st : PendingState) (data : List Nat) :
    (handle_incoming_message st data ≠ Except.error PyError.valueError) ∧
    ((∃ stout, handle_incoming_message st data = Except.ok stout) ∨
     (∃ msg, decode_notify_message data = some msg ∧ msg.command_id = 129 ∧
       msg.message_data ≠ DroidFirmwareVersion ∧
       handle_incoming_message st data = Except.error PyError.exception)) := by
  cases hdec : decode_notify_message data with
  | none =>
    have h : handle_incoming_message st data = Except.ok st := by
      unfold handle_incoming_message
      rw [hdec]
    rw [h]
    exact ⟨by simp, Or.inl ⟨st, rfl⟩⟩
  | some msg =>
    obtain ⟨sz, u1, cid, u3, md⟩ := msg
    have hmsg : handle_incoming_message st data =
        match process_incoming_message st ⟨sz, u1, cid, u3, md⟩ with
        | Except.ok st2 => Except.ok st2
        | Except.error PyError.valueError => Except.ok st
        | Except.error PyError.exception => Except.error PyError.exception := by
      unfold handle_incoming_message
      rw [hdec]
    rw [hmsg]
    by_cases h129 : cid = 129
    · subst h129
      have hv : valid_command 129 = true := by decide
      by_cases hfw : md = DroidFirmwareVersion
      · have hok : process_incoming_message st ⟨sz, u1, 129, u3, md⟩ =
            Except.ok (handle_pending_callbacks st 129 md) := by
          simp [process_incoming_message, hv, verify_firmware_version, hfw]
        rw [hok]
        exact ⟨by simp, Or.inl ⟨_, rfl⟩⟩
      · have herr : process_incoming_message st ⟨sz, u1, 129, u3, md⟩ =
            Except.error PyError.exception := by
          simp [process_incoming_message, hv, verify_firmware_version, hfw]
        rw [herr]
        exact ⟨by simp, Or.inr ⟨⟨sz, u1, 129, u3, md⟩, rfl, rfl, hfw, rfl⟩⟩
    · by_cases h128 : cid = 128
      · subst h128
        have hv : valid_command 128 = true := by decide
        cases hmh : handle_runit_head_motor_events md with
        | ok u =>
          cases u
          have hok : process_incoming_message st ⟨sz, u1, 128, u3, md⟩ =
              Except.ok (handle_pending_callbacks st 128 md) := by
            simp [process_incoming_message, hv, hmh]
          rw [hok]
          exact ⟨by simp, Or.inl ⟨_, rfl⟩⟩
        | error e =>
          have he : e = PyError.valueError := by
            cases e
            · rfl
            · unfold handle_runit_head_motor_events at hmh
              split at hmh <;> simp_all
          subst he
          have herr : process_incoming_message st ⟨sz, u1, 128, u3, md⟩ =
              Except.error PyError.valueError := by
            simp [process_incoming_message, hv, hmh]
          rw [herr]
          exact ⟨by simp, Or.inl ⟨st, rfl⟩⟩
      · by_cases hvalid : valid_command cid = true
        · have hok : process_incoming_message st ⟨sz, u1, cid, u3, md⟩ =
              Except.ok (handle_pending_callbacks st cid md) := by
            simp [process_incoming_message, hvalid, h129, h128]
          rw [hok]
          exact ⟨by simp, Or.inl ⟨_, rfl⟩⟩
        · have hok : process_incoming_message st ⟨sz, u1, cid, u3, md⟩ =
              Except.ok st := by
            simp [process_incoming_message, hvalid]
          rw [hok]
          exact ⟨by simp, Or.inl ⟨st, rfl⟩⟩

/-- Counterexample to C10 as stated: the well-formed four-byte
notification `[0x23, 0x00, 0x81, 0x00]` (declared size 4 matches, command
id 0x81 = 129, empty payload differing from the expected firmware
version) makes `handle_incoming_message` raise the firmware-mismatch
`Exception` to its caller, so a single bad packet can crash the receive
loop. -/
theorem C10_counterexample :
    handle_incoming_message ⟨[], 0, []⟩ [0x23, 0x00, 0x81, 0x00] =
      Except.error PyError.exception := rfl
